import Mathlib

set_option linter.unusedVariables false

namespace Patlite

/- Shallow embedding of src/app/patlite_controller.py.

   The Python class PatliteController holds a hid device handle, a
   connected flag and three cached LED bytes, all guarded by a lock.
   Every operation runs under the lock, so each public method is one
   atomic step; we embed each method as a pure function from the
   session state (plus oracles for the outcomes of the external hid
   calls open and write) to a result boolean and a new state.

   The external device is modelled by: a counter of handle ids
   (hid.device() allocates a fresh handle), the list of handle ids
   currently open (open adds, close removes), a trace of the buffers
   passed to device.write, and a trace of close calls. Whether an
   open or a write succeeds is an oracle boolean argument, since the
   Python code has no control over it and catches any exception. -/

/-- PatliteColor enum (patlite_controller.py lines 7-16). -/
inductive PatliteColor where
  | OFF
  | RED
  | GREEN
  | BLUE
  | YELLOW
  | PURPLE
  | CYAN
  | WHITE
  deriving DecidableEq, Repr

/-- PatlitePattern enum (patlite_controller.py lines 19-24). -/
inductive PatlitePattern where
  | OFF
  | ON
  | BLINK
  | FLASH
  deriving DecidableEq, Repr

/-- LED bit flags (patlite_controller.py lines 27-34): a set over the
five independent flags RED, YELLOW, GREEN, BLUE, WHITE, embedded as
one boolean per flag. -/
structure LED where
  red : Bool
  yellow : Bool
  green : Bool
  blue : Bool
  white : Bool
  deriving DecidableEq, Repr, Fintype

/-- LED.NONE, the empty flag set (line 29). -/
def LED.NONE : LED := ⟨false, false, false, false, false⟩

def LED.singleRED : LED := ⟨true, false, false, false, false⟩

def LED.singleYELLOW : LED := ⟨false, true, false, false, false⟩

def LED.singleGREEN : LED := ⟨false, false, true, false, false⟩

def LED.singleBLUE : LED := ⟨false, false, false, true, false⟩

def LED.singleWHITE : LED := ⟨false, false, false, false, true⟩

/-- Union of two flag sets, as produced by the | operator on Python
Flag values. -/
def LED.union (a b : LED) : LED :=
  ⟨a.red || b.red, a.yellow || b.yellow, a.green || b.green,
   a.blue || b.blue, a.white || b.white⟩

-- LED control values (patlite_controller.py lines 81-86)
def LED_RED_VAL : Nat := 0x10

def LED_YELLOW_VAL : Nat := 0x01

def LED_GREEN_VAL : Nat := 0x10

def LED_BLUE_VAL : Nat := 0x01

def LED_WHITE_VAL : Nat := 0x10

def LED_OFF_VAL : Nat := 0x00

-- Buzzer constants used by stop_buzzer (lines 45, 63)
def BUZZER_MODE_CONTINUOUS : Nat := 0x00

def BUZZER_SOUND_OFF : Nat := 0x00

/-- Controller fields set in PatliteController.__init__
(lines 88-99): device handle (none initially), connected flag and the
three cached LED bytes. A stored handle is modelled by its id. -/
structure Controller where
  device : Option Nat
  connected : Bool
  current_led_r_y : Nat
  current_led_g_b : Nat
  current_led_white : Nat
  deriving DecidableEq, Repr

/-- Whole-system state: the controller object plus the model of the
external hid library (fresh handle counter, ids of handles now open,
trace of buffers passed to device.write, trace of close calls). -/
structure Sys where
  ctrl : Controller
  nextId : Nat
  openIds : List Nat
  writes : List (List Nat)
  closes : List Nat
  deriving DecidableEq, Repr

/-- State right after PatliteController() (lines 88-99). -/
def initState : Sys :=
  { ctrl := { device := none, connected := false,
              current_led_r_y := 0x00, current_led_g_b := 0x00,
              current_led_white := 0x00 },
    nextId := 0, openIds := [], writes := [], closes := [] }

/-- The 9-byte command buffer as assembled by each method:
data = [0] * 9 followed by the index assignments; bytes 1, 2 and 8
are assigned the fixed constant 0x00, byte 3 the buzzer mode, byte 4
the buzzer sound, bytes 5-7 the three LED bytes
(e.g. lines 167-175, 284-292). -/
def buildData (mode sound led_r_y led_g_b led_white : Nat) : List Nat :=
  [0, 0x00, 0x00, mode, sound, led_r_y, led_g_b, led_white, 0x00]

/-- Models the statement self.device.write(data) inside a
try/except that returns a boolean. If self.device is None the
attribute access raises before any device call, so no write call is
recorded and the except branch yields false. Otherwise the write
call on the device object is recorded in the trace and the oracle
decides whether it succeeds (true branch) or raises (except branch
returning false). -/
def tryWrite (s : Sys) (data : List Nat) (writeOk : Bool) : Bool × Sys :=
  match s.ctrl.device with
  | none => (false, s)
  | some _ => (writeOk, { s with writes := s.writes ++ [data] })

/-- connect (lines 101-111): self.device = hid.device() allocates a
fresh handle and overwrites the stored one unconditionally; then
self.device.open(VENDOR_ID, PRODUCT_ID) either succeeds (openOk,
handle becomes open, connected set to True, return True) or raises
(caught, return False, connected flag and the fresh unopened handle
left as they are). -/
def connect (s : Sys) (openOk : Bool) : Bool × Sys :=
  let h := s.nextId
  let s1 : Sys := { s with nextId := s.nextId + 1,
                           ctrl := { s.ctrl with device := some h } }
  if openOk then
    (true, { s1 with openIds := s1.openIds ++ [h],
                     ctrl := { s1.ctrl with connected := true } })
  else
    (false, s1)

/-- disconnect (lines 113-118): if self.connected and self.device,
close the stored handle and clear the connected flag; otherwise do
nothing. A hid device object is always truthy, so the second
conjunct is just the presence of a stored handle. -/
def disconnect (s : Sys) : Sys :=
  if s.ctrl.connected then
    match s.ctrl.device with
    | some h =>
        { s with openIds := s.openIds.erase h,
                 closes := s.closes ++ [h],
                 ctrl := { s.ctrl with connected := false } }
    | none => s
  else s

/-- The color to LED-byte computation inside set_light
(lines 136-156): three locals initialised to 0x00 and then the
if/elif chain on the color; the pattern argument is in scope but
never read (lines 158-159 are a comment). -/
def setLightBytes (color : PatliteColor) (pattern : PatlitePattern) :
    Nat × Nat × Nat :=
  match color with
  | .RED => (LED_RED_VAL, 0x00, 0x00)
  | .YELLOW => (LED_YELLOW_VAL, 0x00, 0x00)
  | .GREEN => (0x00, LED_GREEN_VAL, 0x00)
  | .BLUE => (0x00, LED_BLUE_VAL, 0x00)
  | .PURPLE => (LED_RED_VAL, LED_BLUE_VAL, 0x00)
  | .CYAN => (0x00, LED_GREEN_VAL ||| LED_BLUE_VAL, 0x00)
  | .WHITE => (0x00, 0x00, LED_WHITE_VAL)
  | .OFF => (0x00, 0x00, 0x00)

/-- set_light (lines 120-181): guard on connected, compute the LED
bytes from the color, store them in the cache, build the buffer with
buzzer mode and sound fixed at 0x00, and write. -/
def set_light (s : Sys) (color : PatliteColor) (pattern : PatlitePattern)
    (writeOk : Bool) : Bool × Sys :=
  if s.ctrl.connected = false then (false, s)
  else
    let t := setLightBytes color pattern
    let s1 : Sys :=
      { s with ctrl := { s.ctrl with current_led_r_y := t.1,
                                     current_led_g_b := t.2.1,
                                     current_led_white := t.2.2 } }
    tryWrite s1 (buildData 0x00 0x00 t.1 t.2.1 t.2.2) writeOk

/-- The LED-set to byte computation shared by set_leds
(lines 198-216) and set_all (lines 326-344): three locals
initialised to 0x00, then one OR per flag present. -/
def encodeLedSet (leds : LED) : Nat × Nat × Nat :=
  let led_r_y := 0x00
  let led_g_b := 0x00
  let led_white := 0x00
  let led_r_y := if leds.red then led_r_y ||| LED_RED_VAL else led_r_y
  let led_r_y := if leds.yellow then led_r_y ||| LED_YELLOW_VAL else led_r_y
  let led_g_b := if leds.green then led_g_b ||| LED_GREEN_VAL else led_g_b
  let led_g_b := if leds.blue then led_g_b ||| LED_BLUE_VAL else led_g_b
  let led_white := if leds.white then led_white ||| LED_WHITE_VAL else led_white
  (led_r_y, led_g_b, led_white)

/-- set_leds (lines 183-238): guard on connected, compute the LED
bytes from the flag set, store them in the cache, build the buffer
with buzzer mode and sound fixed at 0x00, and write. -/
def set_leds (s : Sys) (leds : LED) (writeOk : Bool) : Bool × Sys :=
  if s.ctrl.connected = false then (false, s)
  else
    let t := encodeLedSet leds
    let s1 : Sys :=
      { s with ctrl := { s.ctrl with current_led_r_y := t.1,
                                     current_led_g_b := t.2.1,
                                     current_led_white := t.2.2 } }
    tryWrite s1 (buildData 0x00 0x00 t.1 t.2.1 t.2.2) writeOk

/-- reset (lines 240-264). Note: there is no connected guard in the
source; the method goes straight into the try block, builds the
all-zero buffer, clears the cache and calls self.device.write. -/
def reset (s : Sys) (writeOk : Bool) : Bool × Sys :=
  let data := buildData 0x00 0x00 0x00 0x00 0x00
  let s1 : Sys :=
    { s with ctrl := { s.ctrl with current_led_r_y := 0x00,
                                   current_led_g_b := 0x00,
                                   current_led_white := 0x00 } }
  tryWrite s1 data writeOk

/-- set_buzzer (lines 266-298): guard on connected, build the buffer
with the given mode and sound and the three cached LED bytes, and
write; the cache itself is not modified. -/
def set_buzzer (s : Sys) (sound mode : Nat) (writeOk : Bool) : Bool × Sys :=
  if s.ctrl.connected = false then (false, s)
  else
    tryWrite s (buildData mode sound s.ctrl.current_led_r_y
                  s.ctrl.current_led_g_b s.ctrl.current_led_white) writeOk

/-- stop_buzzer (lines 300-307): set_buzzer(BUZZER_SOUND_OFF,
BUZZER_MODE_CONTINUOUS). -/
def stop_buzzer (s : Sys) (writeOk : Bool) : Bool × Sys :=
  set_buzzer s BUZZER_SOUND_OFF BUZZER_MODE_CONTINUOUS writeOk

/-- set_all (lines 309-366): guard on connected, compute the LED
bytes from the flag set, store them in the cache, build the buffer
with the given buzzer mode and sound, and write. -/
def set_all (s : Sys) (leds : LED) (buzzer_sound buzzer_mode : Nat)
    (writeOk : Bool) : Bool × Sys :=
  if s.ctrl.connected = false then (false, s)
  else
    let t := encodeLedSet leds
    let s1 : Sys :=
      { s with ctrl := { s.ctrl with current_led_r_y := t.1,
                                     current_led_g_b := t.2.1,
                                     current_led_white := t.2.2 } }
    tryWrite s1 (buildData buzzer_mode buzzer_sound t.1 t.2.1 t.2.2) writeOk

/-- The cached LED byte triple of a state. -/
def cacheTriple (s : Sys) : Nat × Nat × Nat :=
  (s.ctrl.current_led_r_y, s.ctrl.current_led_g_b, s.ctrl.current_led_white)

/-- Componentwise bitwise OR of two byte triples. -/
def orTriple (x y : Nat × Nat × Nat) : Nat × Nat × Nat :=
  (x.1 ||| y.1, x.2.1 ||| y.2.1, x.2.2 ||| y.2.2)

/-- The singleton flag sets contained in a flag set, in the fixed
flag order. -/
def LED.singletons (s : LED) : List LED :=
  (if s.red then [LED.singleRED] else []) ++
  (if s.yellow then [LED.singleYELLOW] else []) ++
  (if s.green then [LED.singleGREEN] else []) ++
  (if s.blue then [LED.singleBLUE] else []) ++
  (if s.white then [LED.singleWHITE] else [])

/-- A buffer satisfying the fixed protocol frame: exactly 9 bytes,
byte 0 and byte 8 zero, bytes 1 and 2 the fixed constants 0x00. -/
def goodBuffer (d : List Nat) : Prop :=
  d.length = 9 ∧ d.get? 0 = some 0 ∧ d.get? 8 = some 0 ∧
  d.get? 1 = some 0x00 ∧ d.get? 2 = some 0x00

instance : DecidablePred goodBuffer := fun d => by
  unfold goodBuffer; infer_instance

/-- One operation either performs no write call or appends exactly
one buffer satisfying the protocol frame. -/
def writeStep (s s2 : Sys) : Prop :=
  s2.writes = s.writes ∨ ∃ d, s2.writes = s.writes ++ [d] ∧ goodBuffer d

/-- Every buffer assembled by buildData satisfies the fixed frame. -/
theorem buildData_good (mode sound a b c : Nat) :
    goodBuffer (buildData mode sound a b c) :=
  ⟨rfl, rfl, rfl, rfl, rfl⟩

/-- tryWrite either records nothing or records exactly the given
buffer. -/
theorem tryWrite_step (s s1 : Sys) (data : List Nat) (w : Bool)
    (hw : s1.writes = s.writes) (hd : goodBuffer data) :
    writeStep s (tryWrite s1 data w).2 := by
  unfold tryWrite
  cases hdev : s1.ctrl.device with
  | none => exact Or.inl hw
  | some h => exact Or.inr ⟨data, by simp [hw], hd⟩

/-- disconnect is the identity on a state that is not connected. -/
theorem disconnect_id (s : Sys) (h : s.ctrl.connected = false) :
    disconnect s = s := by
  simp [disconnect, h]

/-- C1: the color-to-LED-byte encoding used by set_light produces the
fixed table OFF to (0,0,0), RED to (0x10,0,0), YELLOW to (0x01,0,0),
GREEN to (0,0x10,0), BLUE to (0,0x01,0), PURPLE to (0x10,0x01,0),
CYAN to (0,0x11,0), WHITE to (0,0,0x10), and the pattern argument is
not consulted, so the triple is identical for all four pattern
values of the same color. -/
theorem C1_color_table :
    (∀ p, setLightBytes .OFF p = (0x00, 0x00, 0x00)) ∧
    (∀ p, setLightBytes .RED p = (0x10, 0x00, 0x00)) ∧
    (∀ p, setLightBytes .YELLOW p = (0x01, 0x00, 0x00)) ∧
    (∀ p, setLightBytes .GREEN p = (0x00, 0x10, 0x00)) ∧
    (∀ p, setLightBytes .BLUE p = (0x00, 0x01, 0x00)) ∧
    (∀ p, setLightBytes .PURPLE p = (0x10, 0x01, 0x00)) ∧
    (∀ p, setLightBytes .CYAN p = (0x00, 0x11, 0x00)) ∧
    (∀ p, setLightBytes .WHITE p = (0x00, 0x00, 0x10)) ∧
    (∀ c p q, setLightBytes c p = setLightBytes c q) :=
  ⟨fun _ => rfl, fun _ => rfl, fun _ => rfl, fun _ => rfl, fun _ => rfl,
   fun _ => rfl, fun _ => rfl, fun _ => rfl, fun _ _ _ => rfl⟩

/-- C4: the LED-set encoding used by set_leds is a homomorphism from
flag-set union to componentwise byte-OR: the empty set encodes to
(0,0,0), union maps to OR (hence order-independence), and every set
encodes to the OR of the encodings of its singleton flags. -/
theorem C4_or_homomorphism :
    encodeLedSet LED.NONE = (0x00, 0x00, 0x00) ∧
    (∀ a b : LED,
      encodeLedSet (a.union b) = orTriple (encodeLedSet a) (encodeLedSet b)) ∧
    (∀ a b : LED, encodeLedSet (a.union b) = encodeLedSet (b.union a)) ∧
    (∀ s : LED, encodeLedSet s =
      (s.singletons.map encodeLedSet).foldl orTriple (0x00, 0x00, 0x00)) :=
  ⟨rfl, by decide, by decide, by decide⟩

/-- C3: every write-producing operation, with any arguments and in
any state, passes at most one buffer to the device write, and that
buffer has length exactly 9, byte 0 and byte 8 zero, and bytes 1 and
2 the fixed protocol constants 0x00. -/
theorem C3_frame_invariant :
    (∀ s c p w, writeStep s (set_light s c p w).2) ∧
    (∀ s l w, writeStep s (set_leds s l w).2) ∧
    (∀ s sound mode w, writeStep s (set_buzzer s sound mode w).2) ∧
    (∀ s w, writeStep s (stop_buzzer s w).2) ∧
    (∀ s l bs bm w, writeStep s (set_all s l bs bm w).2) ∧
    (∀ s w, writeStep s (reset s w).2) := by
  refine ⟨?_, ?_, ?_, ?_, ?_, ?_⟩
  · intro s c p w
    unfold set_light
    by_cases hc : s.ctrl.connected = false
    · rw [if_pos hc]
      exact Or.inl rfl
    · rw [if_neg hc]
      exact tryWrite_step s _ _ w rfl (buildData_good _ _ _ _ _)
  · intro s l w
    unfold set_leds
    by_cases hc : s.ctrl.connected = false
    · rw [if_pos hc]
      exact Or.inl rfl
    · rw [if_neg hc]
      exact tryWrite_step s _ _ w rfl (buildData_good _ _ _ _ _)
  · intro s sound mode w
    unfold set_buzzer
    by_cases hc : s.ctrl.connected = false
    · rw [if_pos hc]
      exact Or.inl rfl
    · rw [if_neg hc]
      exact tryWrite_step s _ _ w rfl (buildData_good _ _ _ _ _)
  · intro s w
    unfold stop_buzzer set_buzzer
    by_cases hc : s.ctrl.connected = false
    · rw [if_pos hc]
      exact Or.inl rfl
    · rw [if_neg hc]
      exact tryWrite_step s _ _ w rfl (buildData_good _ _ _ _ _)
  · intro s l bs bm w
    unfold set_all
    by_cases hc : s.ctrl.connected = false
    · rw [if_pos hc]
      exact Or.inl rfl
    · rw [if_neg hc]
      exact tryWrite_step s _ _ w rfl (buildData_good _ _ _ _ _)
  · intro s w
    unfold reset
    exact tryWrite_step s _ _ w rfl (buildData_good _ _ _ _ _)

/-- C7 counterexample: from a Connected prior state (one successful
connect from the initial state), a failing connect returns false but
the session state remains Connected, contradicting the claim that
the state remains or becomes Disconnected for every prior state. -/
theorem C7_counterexample :
    ((connect initState true).2.ctrl.connected = true) ∧
    (connect (connect initState true).2 false).1 = false ∧
    (connect (connect initState true).2 false).2.ctrl.connected = true := by
  decide

/-- C7 amended: if connect fails to open the device it returns a
failure outcome and no exception escapes (the step is total), but
the connected flag is left unchanged: the state remains Disconnected
only when the prior state was Disconnected, while a previously
Connected session remains flagged Connected. -/
theorem C7_amended_connect_failure (s : Sys) :
    (connect s false).1 = false ∧
    (connect s false).2.ctrl.connected = s.ctrl.connected := by
  unfold connect
  simp

/-- C8 counterexample: calling connect while already Connected leaks
the previously held open handle: after the second successful connect
from the initial state, handle 0 is still open, is no longer the
stored handle (the session stores handle 1), and no close call was
ever made, contradicting the no-leak claim. -/
theorem C8_counterexample :
    ((connect initState true).2.ctrl.connected = true) ∧
    (connect (connect initState true).2 true).2.openIds = [0, 1] ∧
    (connect (connect initState true).2 true).2.ctrl.device = some 1 ∧
    (connect (connect initState true).2 true).2.closes = [] := by
  decide

/-- C8 amended: connect never closes a handle and never removes one
from the open set, so calling connect while already Connected
overwrites the stored handle and leaks the old one, which stays
open; the handle stored by a connected session is closed exactly
once by disconnect, after which a second disconnect is a no-op, and
disconnect while already Disconnected is a no-op. -/
theorem C8_amended_handles :
    (∀ s ok, (connect s ok).2.closes = s.closes ∧
       ∀ h, h ∈ s.openIds → h ∈ (connect s ok).2.openIds) ∧
    (∀ s hID, s.ctrl.connected = true → s.ctrl.device = some hID →
       (disconnect s).closes = s.closes ++ [hID] ∧
       (disconnect s).ctrl.connected = false ∧
       disconnect (disconnect s) = disconnect s) ∧
    (∀ s, s.ctrl.connected = false → disconnect s = s) := by
  refine ⟨?_, ?_, disconnect_id⟩
  · intro s ok
    refine ⟨by cases ok <;> rfl, fun h hh => ?_⟩
    cases ok
    · exact hh
    · exact List.mem_append.mpr (Or.inl hh)
  · intro s hID hc hd
    have hds : disconnect s =
        { s with openIds := s.openIds.erase hID,
                 closes := s.closes ++ [hID],
                 ctrl := { s.ctrl with connected := false } } := by
      unfold disconnect
      rw [hc, hd]
      simp
    refine ⟨by rw [hds], by rw [hds], ?_⟩
    rw [hds]
    exact disconnect_id _ rfl

/-- Closed form of set_light on a connected state with a stored
handle. -/
theorem set_light_spec (s : Sys) (c : PatliteColor) (p : PatlitePattern)
    (w : Bool) (hID : Nat)
    (hc : s.ctrl.connected = true) (hd : s.ctrl.device = some hID) :
    set_light s c p w =
      (w, { s with
              ctrl := { s.ctrl with
                          current_led_r_y := (setLightBytes c p).1,
                          current_led_g_b := (setLightBytes c p).2.1,
                          current_led_white := (setLightBytes c p).2.2 },
              writes := s.writes ++
                [buildData 0x00 0x00 (setLightBytes c p).1
                  (setLightBytes c p).2.1 (setLightBytes c p).2.2] }) := by
  simp [set_light, tryWrite, hc, hd]

/-- Closed form of set_leds on a connected state with a stored
handle. -/
theorem set_leds_spec (s : Sys) (l : LED) (w : Bool) (hID : Nat)
    (hc : s.ctrl.connected = true) (hd : s.ctrl.device = some hID) :
    set_leds s l w =
      (w, { s with
              ctrl := { s.ctrl with
                          current_led_r_y := (encodeLedSet l).1,
                          current_led_g_b := (encodeLedSet l).2.1,
                          current_led_white := (encodeLedSet l).2.2 },
              writes := s.writes ++
                [buildData 0x00 0x00 (encodeLedSet l).1
                  (encodeLedSet l).2.1 (encodeLedSet l).2.2] }) := by
  simp [set_leds, tryWrite, hc, hd]

/-- Closed form of set_all on a connected state with a stored
handle. -/
theorem set_all_spec (s : Sys) (l : LED) (bs bm : Nat) (w : Bool) (hID : Nat)
    (hc : s.ctrl.connected = true) (hd : s.ctrl.device = some hID) :
    set_all s l bs bm w =
      (w, { s with
              ctrl := { s.ctrl with
                          current_led_r_y := (encodeLedSet l).1,
                          current_led_g_b := (encodeLedSet l).2.1,
                          current_led_white := (encodeLedSet l).2.2 },
              writes := s.writes ++
                [buildData bm bs (encodeLedSet l).1
                  (encodeLedSet l).2.1 (encodeLedSet l).2.2] }) := by
  simp [set_all, tryWrite, hc, hd]

/-- Closed form of set_buzzer on a connected state with a stored
handle. -/
theorem set_buzzer_spec (s : Sys) (sound mode : Nat) (w : Bool) (hID : Nat)
    (hc : s.ctrl.connected = true) (hd : s.ctrl.device = some hID) :
    set_buzzer s sound mode w =
      (w, { s with writes := s.writes ++
              [buildData mode sound s.ctrl.current_led_r_y
                s.ctrl.current_led_g_b s.ctrl.current_led_white] }) := by
  simp [set_buzzer, tryWrite, hc, hd]

/-- Closed form of reset on a state with a stored handle (reset has
no connected guard). -/
theorem reset_spec (s : Sys) (w : Bool) (hID : Nat)
    (hd : s.ctrl.device = some hID) :
    reset s w =
      (w, { s with
              ctrl := { s.ctrl with
                          current_led_r_y := 0x00,
                          current_led_g_b := 0x00,
                          current_led_white := 0x00 },
              writes := s.writes ++
                [buildData 0x00 0x00 0x00 0x00 0x00] }) := by
  simp [reset, tryWrite, hd]

/-- C2 counterexample: after a successful connect followed by a
disconnect the session is Disconnected but still stores the (now
closed) handle object; invoking reset in that state performs a write
call on the device object and even returns success, because reset
has no connected guard, contradicting the claim that every mutating
operation invoked while Disconnected returns failure and performs
zero device writes. -/
theorem C2_counterexample :
    (disconnect (connect initState true).2).ctrl.connected = false ∧
    (disconnect (connect initState true).2).writes = [] ∧
    (reset (disconnect (connect initState true).2) true).1 = true ∧
    (reset (disconnect (connect initState true).2) true).2.writes =
      [[0, 0, 0, 0, 0, 0, 0, 0, 0]] := by
  decide

/-- C2 amended: the five guarded operations set_light, set_leds,
set_buzzer, stop_buzzer and set_all, invoked while Disconnected,
return failure and perform zero write calls; reset has no connected
guard: it fails with zero write calls only when no device handle is
stored, and whenever a handle is stored (even a stale one from an
earlier session) it performs the write call regardless of the
connected flag. -/
theorem C2_amended_guards :
    (∀ s c p w, s.ctrl.connected = false →
      (set_light s c p w).1 = false ∧
      (set_light s c p w).2.writes = s.writes) ∧
    (∀ s l w, s.ctrl.connected = false →
      (set_leds s l w).1 = false ∧
      (set_leds s l w).2.writes = s.writes) ∧
    (∀ s sound mode w, s.ctrl.connected = false →
      (set_buzzer s sound mode w).1 = false ∧
      (set_buzzer s sound mode w).2.writes = s.writes) ∧
    (∀ s w, s.ctrl.connected = false →
      (stop_buzzer s w).1 = false ∧
      (stop_buzzer s w).2.writes = s.writes) ∧
    (∀ s l bs bm w, s.ctrl.connected = false →
      (set_all s l bs bm w).1 = false ∧
      (set_all s l bs bm w).2.writes = s.writes) ∧
    (∀ s w, s.ctrl.device = none →
      (reset s w).1 = false ∧ (reset s w).2.writes = s.writes) ∧
    (∀ s hID w, s.ctrl.device = some hID →
      (reset s w).2.writes = s.writes ++ [[0, 0, 0, 0, 0, 0, 0, 0, 0]]) := by
  refine ⟨?_, ?_, ?_, ?_, ?_, ?_, ?_⟩
  · intro s c p w hc
    unfold set_light
    rw [if_pos hc]
    exact ⟨rfl, rfl⟩
  · intro s l w hc
    unfold set_leds
    rw [if_pos hc]
    exact ⟨rfl, rfl⟩
  · intro s sound mode w hc
    unfold set_buzzer
    rw [if_pos hc]
    exact ⟨rfl, rfl⟩
  · intro s w hc
    unfold stop_buzzer set_buzzer
    rw [if_pos hc]
    exact ⟨rfl, rfl⟩
  · intro s l bs bm w hc
    unfold set_all
    rw [if_pos hc]
    exact ⟨rfl, rfl⟩
  · intro s w hdev
    simp [reset, tryWrite, hdev]
  · intro s hID w hdev
    simp [reset, tryWrite, hdev, buildData]

/-- C2 amended witness: the guard instantiated for set_light at the
initial state, and the no-handle reset case at the initial state. -/
theorem C2_amended_guards_witness :
    ((set_light initState .RED .ON true).1 = false ∧
     (set_light initState .RED .ON true).2.writes = initState.writes) ∧
    ((reset initState true).1 = false ∧
     (reset initState true).2.writes = initState.writes) :=
  ⟨C2_amended_guards.1 initState .RED .ON true rfl,
   C2_amended_guards.2.2.2.2.2.1 initState true rfl⟩

/-- C5: on a connected session, set_buzzer emits a buffer whose LED
bytes 5, 6, 7 equal the cached LED byte triple and leaves the cache
unchanged, so a second consecutive set_buzzer call with any
arguments again emits the LED bytes cached before the first call. -/
theorem C5_buzzer_preserves_leds (s : Sys) (hID : Nat)
    (sound1 mode1 sound2 mode2 : Nat) (w1 w2 : Bool)
    (hc : s.ctrl.connected = true) (hd : s.ctrl.device = some hID) :
    (∃ d, (set_buzzer s sound1 mode1 w1).2.writes = s.writes ++ [d] ∧
      d.get? 5 = some s.ctrl.current_led_r_y ∧
      d.get? 6 = some s.ctrl.current_led_g_b ∧
      d.get? 7 = some s.ctrl.current_led_white) ∧
    cacheTriple (set_buzzer s sound1 mode1 w1).2 = cacheTriple s ∧
    (∃ d,
      (set_buzzer (set_buzzer s sound1 mode1 w1).2 sound2 mode2 w2).2.writes =
        (set_buzzer s sound1 mode1 w1).2.writes ++ [d] ∧
      d.get? 5 = some s.ctrl.current_led_r_y ∧
      d.get? 6 = some s.ctrl.current_led_g_b ∧
      d.get? 7 = some s.ctrl.current_led_white) := by
  have h1 := set_buzzer_spec s sound1 mode1 w1 hID hc hd
  refine ⟨⟨buildData mode1 sound1 s.ctrl.current_led_r_y
      s.ctrl.current_led_g_b s.ctrl.current_led_white,
      by rw [h1], rfl, rfl, rfl⟩,
    by rw [h1]; rfl, ?_⟩
  have h2 := set_buzzer_spec (set_buzzer s sound1 mode1 w1).2
    sound2 mode2 w2 hID (by rw [h1]; exact hc) (by rw [h1]; exact hd)
  refine ⟨buildData mode2 sound2 s.ctrl.current_led_r_y
      s.ctrl.current_led_g_b s.ctrl.current_led_white, ?_, rfl, rfl, rfl⟩
  rw [h2, h1]

/-- C5 witness: the cache-preservation conjunct at a freshly
connected session with a concrete buzzer setting. -/
theorem C5_buzzer_preserves_leds_witness :
    cacheTriple (set_buzzer (connect initState true).2 0x06 0x03 true).2 =
      cacheTriple (connect initState true).2 :=
  (C5_buzzer_preserves_leds (connect initState true).2 0
    0x06 0x03 0x01 0x00 true true rfl rfl).2.1

/-- C6: reset writes the all-zero 9-byte buffer and sets the cached
LED byte triple to (0,0,0), so a set_buzzer call issued after reset
emits LED bytes (0,0,0) rather than the triple cached before the
reset. -/
theorem C6_reset_zeroes (s : Sys) (hID : Nat) (sound mode : Nat)
    (w1 w2 : Bool)
    (hc : s.ctrl.connected = true) (hd : s.ctrl.device = some hID) :
    (reset s w1).2.writes = s.writes ++ [[0, 0, 0, 0, 0, 0, 0, 0, 0]] ∧
    cacheTriple (reset s w1).2 = (0x00, 0x00, 0x00) ∧
    (∃ d, (set_buzzer (reset s w1).2 sound mode w2).2.writes =
        (reset s w1).2.writes ++ [d] ∧
      d.get? 5 = some 0x00 ∧ d.get? 6 = some 0x00 ∧ d.get? 7 = some 0x00) := by
  have h1 := reset_spec s w1 hID hd
  refine ⟨by rw [h1]; rfl, by rw [h1]; rfl, ?_⟩
  have h2 := set_buzzer_spec (reset s w1).2 sound mode w2 hID
    (by rw [h1]; exact hc) (by rw [h1]; exact hd)
  refine ⟨buildData mode sound 0x00 0x00 0x00, ?_, rfl, rfl, rfl⟩
  rw [h2, h1]

/-- C6 witness: the emitted-buffer conjunct at a freshly connected
session. -/
theorem C6_reset_zeroes_witness :
    (reset (connect initState true).2 true).2.writes =
      (connect initState true).2.writes ++ [[0, 0, 0, 0, 0, 0, 0, 0, 0]] :=
  (C6_reset_zeroes (connect initState true).2 0 0x06 0x03 true true
    rfl rfl).1

/-- C9: on a connected session, set_light and set_leds always force
the buzzer silent in the emitted buffer: byte 3 (buzzer mode) is
0x00 and byte 4 (buzzer sound) is 0x00, for every color, pattern and
flag set. -/
theorem C9_buzzer_forced_silent (s : Sys) (hID : Nat) (c : PatliteColor)
    (p : PatlitePattern) (l : LED) (w : Bool)
    (hc : s.ctrl.connected = true) (hd : s.ctrl.device = some hID) :
    (∃ d, (set_light s c p w).2.writes = s.writes ++ [d] ∧
      d.get? 3 = some 0x00 ∧ d.get? 4 = some 0x00) ∧
    (∃ d, (set_leds s l w).2.writes = s.writes ++ [d] ∧
      d.get? 3 = some 0x00 ∧ d.get? 4 = some 0x00) :=
  ⟨⟨buildData 0x00 0x00 (setLightBytes c p).1 (setLightBytes c p).2.1
      (setLightBytes c p).2.2,
    by rw [set_light_spec s c p w hID hc hd], rfl, rfl⟩,
   ⟨buildData 0x00 0x00 (encodeLedSet l).1 (encodeLedSet l).2.1
      (encodeLedSet l).2.2,
    by rw [set_leds_spec s l w hID hc hd], rfl, rfl⟩⟩

/-- C9 witness: the set_light conjunct at a freshly connected
session with color RED and pattern ON. -/
theorem C9_buzzer_forced_silent_witness :
    ∃ d, (set_light (connect initState true).2 .RED .ON true).2.writes =
      (connect initState true).2.writes ++ [d] ∧
      d.get? 3 = some 0x00 ∧ d.get? 4 = some 0x00 :=
  (C9_buzzer_forced_silent (connect initState true).2 0 .RED .ON
    LED.NONE true rfl rfl).1

/-- C10: in set_light, set_leds, set_all and reset the cache is
updated before the device write is attempted, so when the write
fails (oracle false) the operation returns failure while the cache
already holds the newly computed LED values (zero, for reset), not
the last successfully written ones. -/
theorem C10_cache_updated_before_write (s : Sys) (hID : Nat)
    (c : PatliteColor) (p : PatlitePattern) (l l2 : LED) (bs bm : Nat)
    (hc : s.ctrl.connected = true) (hd : s.ctrl.device = some hID) :
    ((set_light s c p false).1 = false ∧
      cacheTriple (set_light s c p false).2 = setLightBytes c p) ∧
    ((set_leds s l false).1 = false ∧
      cacheTriple (set_leds s l false).2 = encodeLedSet l) ∧
    ((set_all s l2 bs bm false).1 = false ∧
      cacheTriple (set_all s l2 bs bm false).2 = encodeLedSet l2) ∧
    ((reset s false).1 = false ∧
      cacheTriple (reset s false).2 = (0x00, 0x00, 0x00)) := by
  refine ⟨⟨?_, ?_⟩, ⟨?_, ?_⟩, ⟨?_, ?_⟩, ⟨?_, ?_⟩⟩
  · rw [set_light_spec s c p false hID hc hd]
  · rw [set_light_spec s c p false hID hc hd]; rfl
  · rw [set_leds_spec s l false hID hc hd]
  · rw [set_leds_spec s l false hID hc hd]; rfl
  · rw [set_all_spec s l2 bs bm false hID hc hd]
  · rw [set_all_spec s l2 bs bm false hID hc hd]; rfl
  · rw [reset_spec s false hID hd]
  · rw [reset_spec s false hID hd]; rfl

/-- C10 witness: the set_light conjunct at a freshly connected
session with a failing write. -/
theorem C10_cache_updated_before_write_witness :
    (set_light (connect initState true).2 .RED .ON false).1 = false ∧
    cacheTriple (set_light (connect initState true).2 .RED .ON false).2 =
      setLightBytes .RED .ON :=
  (C10_cache_updated_before_write (connect initState true).2 0 .RED .ON
    LED.NONE LED.NONE 0 0 rfl rfl).1

/-- C8 amended witness: the disconnect conjuncts at a freshly
connected session holding handle 0. -/
theorem C8_amended_handles_witness :
    (disconnect (connect initState true).2).closes =
      (connect initState true).2.closes ++ [0] ∧
    (disconnect (connect initState true).2).ctrl.connected = false ∧
    disconnect (disconnect (connect initState true).2) =
      disconnect (connect initState true).2 :=
  C8_amended_handles.2.1 (connect initState true).2 0 rfl rfl

end Patlite
